import Mathlib

/-!
Shallow embedding of `src/main.py` of the lab2life backend: a single
FastAPI endpoint that saves an uploaded PDF, extracts its text with
pdfplumber, asks an external chat-completion service for a summary,
optionally asks it for a translation, and responds with a JSON object
holding a single `summary` string.

External effects are modelled explicitly:
- the filesystem writes/deletes and the PDF parse are request-scoped
  inputs collected in `Env` (each an `Except` so that the Python
  exception on failure is represented);
- the chat-completion capability is an oracle `ChatCall → Except String
  String` mapping an issued request to either its response content or
  the exception message it raises;
- each embedded function returns, besides its value, the list of
  `ChatCall`s it issued, so call counts and call ordering are provable.

Python `str.strip()` is modelled by `pyStrip` (drop whitespace at both
ends of the character list).
-/

namespace Lab2Life

/-- Characters stripped from a string, mirroring Python `str.strip()`:
first the trailing whitespace run is removed, then the leading one. -/
def stripChars (l : List Char) : List Char :=
  ((l.reverse.dropWhile Char.isWhitespace).reverse).dropWhile Char.isWhitespace

/-- Model of Python `str.strip()` (also used for `.strip()` on model
responses). -/
def pyStrip (s : String) : String :=
  ⟨stripChars s.data⟩

/-- One request issued to the chat-completion capability (the Groq
client): the system role content and the user prompt.  Model name and
temperature are fixed constants in the source and never inspected, so
they are not part of the observable call. -/
structure ChatCall where
  system : String
  user : String
deriving DecidableEq, Repr

/-- The chat-completion capability: for a given call, either the
response content (`response.choices[0].message.content`) or the message
of the exception the call raises. -/
def Inference : Type := ChatCall → Except String String

/-- Line 40 of `main.py`: `page.extract_text() or ""` — a page whose
`extract_text()` returns `None` (or an empty string) contributes `""`. -/
def pageText (page : Option String) : String :=
  page.getD ""

/-- Lines 37-41 of `main.py`: accumulate `text += page_text + "\n"` over
the pages, starting from `""`. -/
def joinedPageText (pages : List (Option String)) : String :=
  pages.foldl (fun text page => text ++ pageText page ++ "\n") ""

/-- Model of `extract_text_from_pdf` (`main.py` lines 35-42).  The argument is the
outcome of `pdfplumber.open`: the page list on success, or the parse
exception, which this function does not catch and therefore propagates. -/
def extract_text_from_pdf (pdf : Except String (List (Option String))) :
    Except String String :=
  match pdf with
  | .error e => .error e
  | .ok pages => .ok (pyStrip (joinedPageText pages))

/-- The summarization prompt (`main.py` lines 47-56), embedding the
extracted text verbatim. -/
def summaryPrompt (text : String) : String :=
  "\nYou are a medical expert AI. Summarize this lab report for a patient in simple, clear language.\nInclude:\n1. Key test results (with values and reference ranges)\n2. Meaning or interpretation of each result\n3. Overall health summary and recommendations.\n\nLab Report:\n" ++ text ++ "\n"

/-- The single chat call issued by `generate_summary`. -/
def summaryCall (text : String) : ChatCall :=
  ⟨"You are a helpful medical assistant.", summaryPrompt text⟩

/-- Model of `generate_summary` (`main.py` lines 45-70): issue one chat call; on
success return the trimmed response content, on any exception return
`"Summary generation failed: <details>"`.  Second component: the calls
issued. -/
def generate_summary (infer : Inference) (text : String) :
    String × List ChatCall :=
  match infer (summaryCall text) with
  | .ok response => (pyStrip response, [summaryCall text])
  | .error e => ("Summary generation failed: " ++ e, [summaryCall text])

/-- The translation prompt (`main.py` line 78), naming the target
language and embedding the input text verbatim. -/
def translationPrompt (target_lang text : String) : String :=
  "Translate the following medical lab report summary into " ++ target_lang ++ ". Make it sound natural and medically accurate:\n\n" ++ text

/-- The single chat call issued by `translate_summary` when it
translates. -/
def translationCall (target_lang text : String) : ChatCall :=
  ⟨"You are a professional medical translator.", translationPrompt target_lang text⟩

/-- Model of `translate_summary` (`main.py` lines 73-92): `"en"` returns the input
unchanged with no call; otherwise one chat call, returning the trimmed
response content or `"Translation failed: <details>"` on any
exception. -/
def translate_summary (infer : Inference) (text target_lang : String) :
    String × List ChatCall :=
  if target_lang = "en" then (text, [])
  else
    match infer (translationCall target_lang text) with
    | .ok response => (pyStrip response, [translationCall target_lang text])
    | .error e => ("Translation failed: " ++ e, [translationCall target_lang text])

/-- The request-scoped external world of one `POST /upload-report`
request: the outcome of writing the upload to the scratch path, the
outcome of `pdfplumber.open` on that file, the chat-completion oracle,
and the outcome of `os.remove` on the scratch file. -/
structure Env where
  saveResult : Except String Unit
  pdfResult : Except String (List (Option String))
  infer : Inference
  removeResult : Except String Unit

/-- The observable outcome of one request: the `summary` field of the
JSON response, the chat calls issued (in order), and whether the scratch
file was deleted (`os.remove` executed successfully). -/
structure Outcome where
  summary : String
  calls : List ChatCall
  fileDeleted : Bool
deriving DecidableEq, Repr

/-- Model of the `try` block of `upload_report` (`main.py` lines 100-119): result
is the summary string returned, or the uncaught exception; paired with
the chat calls issued and whether the scratch file was deleted before
the exit. -/
def upload_report_try (env : Env) (language : String) :
    Except String String × List ChatCall × Bool :=
  match env.saveResult with
  | .error e => (.error e, [], false)
  | .ok _ =>
    match extract_text_from_pdf env.pdfResult with
    | .error e => (.error e, [], false)
    | .ok pdf_text =>
      if pyStrip pdf_text = "" then
        (.ok "No readable text found in the PDF file.", [], false)
      else
        let s := generate_summary env.infer pdf_text
        let t := translate_summary env.infer s.1 language
        match env.removeResult with
        | .error e => (.error e, s.2 ++ t.2, false)
        | .ok _ => (.ok t.1, s.2 ++ t.2, true)

/-- Model of `upload_report` (`main.py` lines 98-123): run the `try` block; any
exception is caught at this boundary and converted to the summary
`"An error occurred: <details>"`.  The handler always produces an
`Outcome`, whose `summary` is a string — it never re-raises. -/
def upload_report (env : Env) (language : String) : Outcome :=
  match upload_report_try env language with
  | (.ok s, calls, deleted) => ⟨s, calls, deleted⟩
  | (.error e, calls, deleted) => ⟨"An error occurred: " ++ e, calls, deleted⟩

/-- Modelled from the spec (§4.1): "join with newline, trim" — the
per-page texts joined with a single newline separator.  Used only to
compare the source accumulation loop against the spec wording. -/
def newline_join : List String → String
  | [] => ""
  | [t] => t
  | t :: t' :: ts => t ++ "\n" ++ newline_join (t' :: ts)

/-- An inference oracle whose every call succeeds with a fixed
response, used for concrete instantiations. -/
def inferOk : Inference := fun _ => .ok " RESULT "

/-- An inference oracle whose every call raises, used for concrete
instantiations. -/
def inferFail : Inference := fun _ => .error "network down"

/-- A request environment on the fully successful path: a one-page PDF
with text, all filesystem operations succeed, all chat calls succeed. -/
def envNormal : Env := ⟨.ok (), .ok [some "Hemoglobin: 13.5 g/dL"], inferOk, .ok ()⟩

/-- A request environment whose PDF parses but has no extractable
text on its one page. -/
def envEmptyDoc : Env := ⟨.ok (), .ok [none], inferOk, .ok ()⟩

/-- A request environment whose PDF cannot be parsed at all. -/
def envParseFail : Env := ⟨.ok (), .error "PDF parse error", inferOk, .ok ()⟩

-- String append facts used below, proved at the character-list level.

theorem strAppendAssoc (a b c : String) : a ++ b ++ c = a ++ (b ++ c) :=
  String.ext (by simp [String.data_append])

theorem strEmptyAppend (a : String) : "" ++ a = a :=
  String.ext (by simp [String.data_append])

theorem strAppendEmpty (a : String) : a ++ "" = a :=
  String.ext (by simp [String.data_append])

/-- Characters failing the predicate survive `dropWhile`. -/
theorem mem_dropWhile (p : Char → Bool) (l : List Char) (c : Char)
    (hc : c ∈ l) (hp : p c = false) : c ∈ l.dropWhile p := by
  induction l with
  | nil => cases hc
  | cons a as ih =>
    by_cases ha : p a = true
    · rcases List.mem_cons.mp hc with rfl | h
      · rw [hp] at ha; cases ha
      · simpa [List.dropWhile, ha] using ih h
    · simpa [List.dropWhile, Bool.of_not_eq_true ha] using hc

/-- A non-whitespace character of `l` survives `stripChars`. -/
theorem mem_stripChars (l : List Char) (c : Char) (hc : c ∈ l)
    (hw : c.isWhitespace = false) : c ∈ stripChars l := by
  unfold stripChars
  exact mem_dropWhile _ _ _
    (List.mem_reverse.mpr (mem_dropWhile _ _ _ (List.mem_reverse.mpr hc) hw)) hw

/-- A string holding a non-whitespace character does not strip to the
empty string. -/
theorem pyStrip_ne_empty (s : String) (c : Char) (hc : c ∈ s.data)
    (hw : c.isWhitespace = false) : pyStrip s ≠ "" := by
  intro h
  have hdata : stripChars s.data = [] := congrArg String.data h
  exact List.ne_nil_of_mem (mem_stripChars s.data c hc hw) hdata

/-- Stripping absorbs a trailing newline. -/
theorem stripChars_append_newline (l : List Char) :
    stripChars (l ++ ['\n']) = stripChars l := by
  unfold stripChars
  have : ('\n').isWhitespace = true := by decide
  simp [List.dropWhile, this]

/-- Stripping via `pyStrip` absorbs a trailing newline. -/
theorem pyStrip_append_newline (s : String) :
    pyStrip (s ++ "\n") = pyStrip s := by
  unfold pyStrip
  have hd : (s ++ "\n").data = s.data ++ ['\n'] := by
    simp [String.data_append]
  rw [hd, stripChars_append_newline]

/-- The page-accumulation fold commutes with a starting accumulator. -/
theorem foldl_join_acc (ts : List (Option String)) (acc : String) :
    ts.foldl (fun text page => text ++ pageText page ++ "\n") acc =
      acc ++ ts.foldl (fun text page => text ++ pageText page ++ "\n") "" := by
  induction ts generalizing acc with
  | nil => simp [strAppendEmpty]
  | cons p ps ih =>
    simp only [List.foldl_cons]
    rw [ih, ih ("" ++ pageText p ++ "\n"), strEmptyAppend, ← strAppendAssoc,
      ← strAppendAssoc]

/-- Unfolding one page of the accumulation loop. -/
theorem joinedPageText_cons (p : Option String) (ps : List (Option String)) :
    joinedPageText (p :: ps) = pageText p ++ "\n" ++ joinedPageText ps := by
  unfold joinedPageText
  simp only [List.foldl_cons]
  rw [foldl_join_acc, strEmptyAppend]

/-- Every character of an extracted page occurs in the accumulated
text. -/
theorem mem_joinedPageText (pages : List (Option String)) (p : Option String)
    (c : Char) (hp : p ∈ pages) (hc : c ∈ (pageText p).data) :
    c ∈ (joinedPageText pages).data := by
  induction pages with
  | nil => cases hp
  | cons q qs ih =>
    rw [joinedPageText_cons]
    rcases List.mem_cons.mp hp with rfl | h
    · simp [String.data_append]
      exact Or.inl hc
    · simp [String.data_append]
      exact Or.inr (Or.inr (ih h))

/-- For nonempty page lists the accumulation loop produces the
newline-join of the page texts followed by one trailing newline. -/
theorem joinedPageText_eq_join (p : Option String) (ps : List (Option String)) :
    joinedPageText (p :: ps) = newline_join ((p :: ps).map pageText) ++ "\n" := by
  induction ps generalizing p with
  | nil =>
    rw [joinedPageText_cons]
    show pageText p ++ "\n" ++ joinedPageText [] = newline_join [pageText p] ++ "\n"
    rw [show joinedPageText [] = "" from rfl, strAppendEmpty]
    rfl
  | cons q qs ih =>
    rw [joinedPageText_cons, ih q]
    apply String.ext
    rw [show newline_join ((p :: q :: qs).map pageText) =
      pageText p ++ "\n" ++ newline_join ((q :: qs).map pageText) from rfl]
    simp [String.data_append]

/-- The stripped accumulation equals the stripped spec-style
newline-join, for every page list. -/
theorem pyStrip_joinedPageText (pages : List (Option String)) :
    pyStrip (joinedPageText pages) =
      pyStrip (newline_join (pages.map pageText)) := by
  cases pages with
  | nil => rfl
  | cons p ps => rw [joinedPageText_eq_join, pyStrip_append_newline]

/-- C1: every request to POST /upload-report yields a response whose
`summary` field is a string: either the try-block value, or, when the
try block raises `e`, the text `"An error occurred: " ++ e` — never a
propagated exception or a separate error field. -/
theorem upload_report_summary_total (env : Env) (language : String) :
    (∃ s, (upload_report_try env language).1 = .ok s ∧
      (upload_report env language).summary = s) ∨
    (∃ e, (upload_report_try env language).1 = .error e ∧
      (upload_report env language).summary = "An error occurred: " ++ e) := by
  rcases h : upload_report_try env language with ⟨r, calls, deleted⟩
  cases r with
  | ok s => exact Or.inl ⟨s, rfl, by simp [upload_report, h]⟩
  | error e => exact Or.inr ⟨e, rfl, by simp [upload_report, h]⟩

/-- C2: on the normal path (save succeeds, extraction succeeds with
non-whitespace text, no exception) the response summary is exactly
`translate_summary (generate_summary pdf_text) language`: summarization
on the extraction output, then translation on the summarization
output. -/
theorem upload_report_normal_path (env : Env) (language pdf_text : String)
    (hsave : env.saveResult = .ok ())
    (hpdf : extract_text_from_pdf env.pdfResult = .ok pdf_text)
    (hne : pyStrip pdf_text ≠ "")
    (hrm : env.removeResult = .ok ()) :
    (upload_report env language).summary =
      (translate_summary env.infer (generate_summary env.infer pdf_text).1 language).1 := by
  simp [upload_report, upload_report_try, hsave, hpdf, hne, hrm]

/-- Witness for C2 at a one-page PDF and language "fr". -/
theorem upload_report_normal_path_witness :
    (upload_report envNormal "fr").summary =
      (translate_summary envNormal.infer
        (generate_summary envNormal.infer "Hemoglobin: 13.5 g/dL").1 "fr").1 :=
  upload_report_normal_path envNormal "fr" "Hemoglobin: 13.5 g/dL" rfl rfl
    (by decide) rfl

/-- C3: when the extracted text strips to the empty string, the
response summary is exactly the fixed message and no chat call is
issued at all. -/
theorem upload_report_empty_text (env : Env) (language pdf_text : String)
    (hsave : env.saveResult = .ok ())
    (hpdf : extract_text_from_pdf env.pdfResult = .ok pdf_text)
    (hempty : pyStrip pdf_text = "") :
    (upload_report env language).summary = "No readable text found in the PDF file." ∧
    (upload_report env language).calls = [] := by
  constructor <;> simp [upload_report, upload_report_try, hsave, hpdf, hempty]

/-- Witness for C3 at a PDF whose single page has no extractable
text. -/
theorem upload_report_empty_text_witness :
    (upload_report envEmptyDoc "fr").summary = "No readable text found in the PDF file." ∧
    (upload_report envEmptyDoc "fr").calls = [] :=
  upload_report_empty_text envEmptyDoc "fr" "" rfl rfl rfl

/-- C4: `extract_text_from_pdf` does not catch a parse failure (it
propagates it verbatim), and every exception the try block raises is
caught at the handler boundary and converted to the summary
`"An error occurred: " ++ e`; the handler itself is total. -/
theorem handler_catches_exceptions :
    (∀ e, extract_text_from_pdf (.error e) = .error e) ∧
    (∀ (env : Env) (language e : String),
      (upload_report_try env language).1 = .error e →
      (upload_report env language).summary = "An error occurred: " ++ e) := by
  constructor
  · intro e; rfl
  · intro env language e h
    unfold upload_report
    rcases hh : upload_report_try env language with ⟨r, calls, deleted⟩
    rw [hh] at h
    cases r with
    | ok s => exact absurd h (by simp)
    | error e2 =>
      simp only at h
      cases h
      rfl

/-- Witness for C4 at a request whose PDF cannot be parsed. -/
theorem handler_catches_exceptions_witness :
    (upload_report envParseFail "en").summary = "An error occurred: PDF parse error" :=
  handler_catches_exceptions.2 envParseFail "en" "PDF parse error" rfl

/-- C5: translation with language code "en" is the identity and issues
no chat call. -/
theorem translate_summary_en_id (infer : Inference) (s : String) :
    translate_summary infer s "en" = (s, []) := by
  simp [translate_summary]

/-- C6: when the summarization chat call raises `e`, `generate_summary`
returns the string `"Summary generation failed: " ++ e` instead of
raising; for a non-"en" language, that failure string then becomes the
input of `translate_summary`, embedded in the translation call as if it
were a real summary. -/
theorem generate_summary_failure_to_translate (infer : Inference)
    (text e language : String)
    (hfail : infer (summaryCall text) = .error e)
    (hlang : language ≠ "en") :
    (generate_summary infer text).1 = "Summary generation failed: " ++ e ∧
    (translate_summary infer (generate_summary infer text).1 language).2 =
      [translationCall language ("Summary generation failed: " ++ e)] := by
  have h1 : (generate_summary infer text).1 = "Summary generation failed: " ++ e := by
    simp [generate_summary, hfail]
  refine ⟨h1, ?_⟩
  rw [h1]
  cases h2 : infer (translationCall language ("Summary generation failed: " ++ e)) <;>
    simp [translate_summary, hlang, h2]

/-- Witness for C6: every chat call fails, language "fr". -/
theorem generate_summary_failure_to_translate_witness :
    (generate_summary inferFail "report text").1 =
      "Summary generation failed: network down" ∧
    (translate_summary inferFail (generate_summary inferFail "report text").1 "fr").2 =
      [translationCall "fr" ("Summary generation failed: " ++ "network down")] :=
  generate_summary_failure_to_translate inferFail "report text" "network down" "fr"
    rfl (by decide)

/-- C7: for every non-"en" language, `translate_summary` issues exactly
one chat call (the translation call on its input); it returns the
trimmed response on success and `"Translation failed: " ++ e` when the
call raises `e`, never propagating the exception. -/
theorem translate_summary_non_en (infer : Inference) (text target_lang : String)
    (h : target_lang ≠ "en") :
    (translate_summary infer text target_lang).2 = [translationCall target_lang text] ∧
    (∀ r, infer (translationCall target_lang text) = .ok r →
      (translate_summary infer text target_lang).1 = pyStrip r) ∧
    (∀ e, infer (translationCall target_lang text) = .error e →
      (translate_summary infer text target_lang).1 = "Translation failed: " ++ e) := by
  refine ⟨?_, ?_, ?_⟩
  · cases h2 : infer (translationCall target_lang text) <;>
      simp [translate_summary, h, h2]
  · intro r hr; simp [translate_summary, h, hr]
  · intro e he; simp [translate_summary, h, he]

/-- Witness for C7 at language "es" and a succeeding oracle. -/
theorem translate_summary_non_en_witness :
    (translate_summary inferOk "hello" "es").2 = [translationCall "es" "hello"] ∧
    (translate_summary inferOk "hello" "es").1 = pyStrip " RESULT " :=
  ⟨(translate_summary_non_en inferOk "hello" "es" (by decide)).1,
   (translate_summary_non_en inferOk "hello" "es" (by decide)).2.1 " RESULT " rfl⟩

/-- C8: for every successfully opened PDF, extraction returns the
stripped newline-join of the per-page texts (a `None` page contributing
the empty string); if some page holds a non-whitespace character the
result is a non-empty string. -/
theorem extract_text_join_trim (pages : List (Option String)) :
    extract_text_from_pdf (.ok pages) =
      .ok (pyStrip (newline_join (pages.map pageText))) ∧
    ((∃ p ∈ pages, ∃ c ∈ (pageText p).data, c.isWhitespace = false) →
      pyStrip (newline_join (pages.map pageText)) ≠ "") := by
  constructor
  · show Except.ok (pyStrip (joinedPageText pages)) = _
    rw [pyStrip_joinedPageText]
  · rintro ⟨p, hp, c, hc, hw⟩
    rw [← pyStrip_joinedPageText]
    exact pyStrip_ne_empty _ c (mem_joinedPageText pages p c hp hc) hw

/-- Witness for C8 at a two-page PDF with one text page and one empty
page. -/
theorem extract_text_join_trim_witness :
    extract_text_from_pdf (.ok [some "Hello", none]) =
      .ok (pyStrip (newline_join ([some "Hello", none].map pageText))) ∧
    pyStrip (newline_join ([some "Hello", none].map pageText)) ≠ "" :=
  ⟨(extract_text_join_trim [some "Hello", none]).1,
   (extract_text_join_trim [some "Hello", none]).2
     ⟨some "Hello", by decide, 'H', by decide, by decide⟩⟩

/-- C9 counterexample: on the empty-document outcome the handler
returns without deleting the scratch file, refuting the claim that the
file is deleted for every request outcome. -/
theorem upload_report_file_not_deleted :
    (upload_report envEmptyDoc "en").fileDeleted = false := rfl

/-- C9 amended: the scratch file is deleted exactly on the fully
successful path — save, extraction with non-whitespace text, and the
delete itself all succeed; on the empty-document and error outcomes the
handler returns without deleting it. -/
theorem upload_report_fileDeleted_iff (env : Env) (language : String) :
    (upload_report env language).fileDeleted = true ↔
      ∃ pdf_text, env.saveResult = .ok () ∧
        extract_text_from_pdf env.pdfResult = .ok pdf_text ∧
        pyStrip pdf_text ≠ "" ∧ env.removeResult = .ok () := by
  obtain ⟨sv, pdfr, inf, rm⟩ := env
  cases sv with
  | error e => simp [upload_report, upload_report_try]
  | ok u =>
    cases u
    cases hx : extract_text_from_pdf pdfr with
    | error e => simp [upload_report, upload_report_try, hx]
    | ok pdf_text =>
      by_cases hs : pyStrip pdf_text = ""
      · simp [upload_report, upload_report_try, hx, hs]
      · cases rm with
        | error e => simp [upload_report, upload_report_try, hx, hs]
        | ok u2 =>
          cases u2
          refine ⟨fun _ => ⟨pdf_text, rfl, rfl, hs, rfl⟩, fun _ => ?_⟩
          simp [upload_report, upload_report_try, hx, hs]

/-- Witness for the amended C9 on the fully successful path. -/
theorem upload_report_fileDeleted_iff_witness :
    (upload_report envNormal "en").fileDeleted = true :=
  (upload_report_fileDeleted_iff envNormal "en").mpr
    ⟨"Hemoglobin: 13.5 g/dL", rfl, rfl, by decide, rfl⟩

/-- C10: the English passthrough test is an exact, case-sensitive
comparison with "en": for every other language string — "EN", "En",
"en-US", "en" with spaces included — a translation chat call is
issued. -/
theorem translate_en_comparison_exact (infer : Inference)
    (text target_lang : String) (h : target_lang ≠ "en") :
    (translate_summary infer text target_lang).2 =
      [translationCall target_lang text] := by
  cases h2 : infer (translationCall target_lang text) <;>
    simp [translate_summary, h, h2]

/-- Witness for C10 at the upper-case variant "EN". -/
theorem translate_en_comparison_exact_witness :
    (translate_summary inferOk "hello" "EN").2 = [translationCall "EN" "hello"] :=
  translate_en_comparison_exact inferOk "hello" "EN" (by decide)

end Lab2Life
